import Mathlib

/-!
# ShareFiles — verification of the access-control and lifecycle engine

Shallow embedding of the ShareFiles backend (Cloudflare Workers, TypeScript)
into Lean 4, covering:

* `backend/src/utils/crypto.ts` — password hashing (hex-encoded SHA-256),
  id generation, secure storage-key generation;
* `backend/src/utils/validation.ts` — expiry / size / mime / expiry-hours
  validation helpers;
* `services/database.ts` (`DatabaseService`) — file and text-share records,
  lookups that hide soft-deleted rows, counter increments, expiry sweep,
  accessibility policy;
* `services/storage.ts` (`StorageService`) — blob store and the orphaned-file
  reconciliation sweep;
* `backend/src/handlers/upload.ts`, `download.ts`, `text.ts` — the creation and
  redemption request handlers;
* `backend/src/index.ts` — the scheduled cleanup job.

Timestamps are modelled as natural numbers (the code compares `Date` values
and ISO-8601 strings, both of which order like instants).  JavaScript
truthiness on optional fields (`0`, `""`, `null`/`undefined` are falsy) is
modelled explicitly by `truthyNum` / `truthyStr`.  The metadata store is a
list of records in table order; SQL `UPDATE ... WHERE id = ?` is a map over
the list, `SELECT ... first()` is `List.find?`.
-/

/-! ## JavaScript truthiness for optional record fields -/

/-- Truthiness of an optional JS number: `null`/`undefined` and `0` are falsy. -/
def truthyNum : Option Nat → Bool
  | none => false
  | some n => n != 0

/-- Truthiness of an optional JS string: `null`/`undefined` and `""` are falsy. -/
def truthyStr : Option String → Bool
  | none => false
  | some s => !s.isEmpty

/-! ## SHA-256 (the digest invoked by `crypto.subtle.digest('SHA-256', …)`)

`utils/crypto.ts` delegates the digest itself to the WebCrypto platform
primitive; the algorithm below is standard SHA-256 (FIPS 180-4) over bytes,
with 32-bit words represented as naturals reduced mod `2^32`. -/

/-- Truncation to a 32-bit word. -/
def w32 (x : Nat) : Nat := x % 4294967296

/-- 32-bit right rotation (input assumed `< 2^32`). -/
def rotr32 (n x : Nat) : Nat := x / 2 ^ n + x % 2 ^ n * 2 ^ (32 - n)

/-- 32-bit logical right shift. -/
def shr32 (n x : Nat) : Nat := x / 2 ^ n

/-- SHA-256 choice function `Ch(e,f,g)`. -/
def sha256Ch (e f g : Nat) : Nat :=
  Nat.xor (Nat.land e f) (Nat.land (Nat.xor e 4294967295) g)

/-- SHA-256 majority function `Maj(a,b,c)`. -/
def sha256Maj (a b c : Nat) : Nat :=
  Nat.xor (Nat.xor (Nat.land a b) (Nat.land a c)) (Nat.land b c)

/-- SHA-256 `Σ₀`. -/
def sha256S0 (a : Nat) : Nat :=
  Nat.xor (Nat.xor (rotr32 2 a) (rotr32 13 a)) (rotr32 22 a)

/-- SHA-256 `Σ₁`. -/
def sha256S1 (e : Nat) : Nat :=
  Nat.xor (Nat.xor (rotr32 6 e) (rotr32 11 e)) (rotr32 25 e)

/-- SHA-256 `σ₀`. -/
def sha256s0 (x : Nat) : Nat :=
  Nat.xor (Nat.xor (rotr32 7 x) (rotr32 18 x)) (shr32 3 x)

/-- SHA-256 `σ₁`. -/
def sha256s1 (x : Nat) : Nat :=
  Nat.xor (Nat.xor (rotr32 17 x) (rotr32 19 x)) (shr32 10 x)

/-- SHA-256 round constants. -/
def sha256K : List Nat :=
  [1116352408, 1899447441, 3049323471, 3921009573, 961987163,
   1508970993, 2453635748, 2870763221, 3624381080, 310598401,
   607225278, 1426881987, 1925078388, 2162078206, 2614888103,
   3248222580, 3835390401, 4022224774, 264347078, 604807628,
   770255983, 1249150122, 1555081692, 1996064986, 2554220882,
   2821834349, 2952996808, 3210313671, 3336571891, 3584528711,
   113926993, 338241895, 666307205, 773529912, 1294757372,
   1396182291, 1695183700, 1986661051, 2177026350, 2456956037,
   2730485921, 2820302411, 3259730800, 3345764771, 3516065817,
   3600352804, 4094571909, 275423344, 430227734, 506948616,
   659060556, 883997877, 958139571, 1322822218, 1537002063,
   1747873779, 1955562222, 2024104815, 2227730452, 2361852424,
   2428436474, 2756734187, 3204031479, 3329325298]

/-- SHA-256 initial hash state. -/
def sha256H0 : List Nat :=
  [1779033703, 3144134277, 1013904242, 2773480762,
   1359893119, 2600822924, 528734635, 1541459225]

/-- Merkle–Damgård padding: append `0x80`, zeros, and the 64-bit bit length. -/
def sha256Pad (msg : List Nat) : List Nat :=
  let L := msg.length
  let k := (119 - L % 64) % 64
  msg ++ [128] ++ List.replicate k 0 ++
    ([56, 48, 40, 32, 24, 16, 8, 0].map fun i => 8 * L / 2 ^ i % 256)

/-- Message schedule: 16 big-endian words from the 64-byte block, extended
to 64 words. -/
def sha256Schedule (block : List Nat) : List Nat :=
  let w16 := (List.range 16).map fun i =>
    block.getD (4 * i) 0 * 16777216 + block.getD (4 * i + 1) 0 * 65536 +
      block.getD (4 * i + 2) 0 * 256 + block.getD (4 * i + 3) 0
  (List.range 48).foldl
    (fun w _ =>
      let t := w.length
      w ++ [w32 (sha256s1 (w.getD (t - 2) 0) + w.getD (t - 7) 0 +
                 sha256s0 (w.getD (t - 15) 0) + w.getD (t - 16) 0)])
    w16

/-- One SHA-256 compression step over a 64-byte block. -/
def sha256Compress (H : List Nat) (block : List Nat) : List Nat :=
  let W := sha256Schedule block
  let st := (List.range 64).foldl
    (fun st t =>
      match st with
      | [a, b, c, d, e, f, g, h] =>
        let T1 := w32 (h + sha256S1 e + sha256Ch e f g +
                       sha256K.getD t 0 + W.getD t 0)
        let T2 := w32 (sha256S0 a + sha256Maj a b c)
        [w32 (T1 + T2), a, b, c, w32 (d + T1), e, f, g]
      | other => other)
    H
  List.zipWith (fun x y => w32 (x + y)) H st

/-- Fold the compression function over consecutive 64-byte chunks
(`fuel` bounds the recursion; callers pass the padded length). -/
def sha256Chunks : Nat → List Nat → List Nat → List Nat
  | 0, _, H => H
  | _ + 1, [], H => H
  | fuel + 1, bytes, H => sha256Chunks fuel (bytes.drop 64) (sha256Compress H (bytes.take 64))

/-- SHA-256 digest of a byte sequence, as eight 32-bit words. -/
def sha256Words (msg : List Nat) : List Nat :=
  let padded := sha256Pad msg
  (sha256Chunks padded.length padded sha256H0).map w32

/-- UTF-8 encoding of one Unicode scalar value. -/
def utf8EncodeCodepoint (c : Nat) : List Nat :=
  if c < 128 then [c]
  else if c < 2048 then [192 + c / 64, 128 + c % 64]
  else if c < 65536 then [224 + c / 4096, 128 + c / 64 % 64, 128 + c % 64]
  else [240 + c / 262144, 128 + c / 4096 % 64, 128 + c / 64 % 64, 128 + c % 64]

/-- UTF-8 bytes of a string (`TextEncoder().encode`). -/
def utf8Bytes (s : String) : List Nat :=
  s.data.flatMap fun c => utf8EncodeCodepoint c.toNat

/-- The digest words of a password, as produced in `hashPassword`. -/
def digestWords (s : String) : List Nat := sha256Words (utf8Bytes s)

/-- Big-endian recombination of 32-bit words into one natural number. -/
def wordsToNat : List Nat → Nat
  | [] => 0
  | w :: ws => w * 4294967296 ^ ws.length + wordsToNat ws

/-- The 256-bit digest of a password as a single natural number. -/
def digestNat (s : String) : Nat := wordsToNat (digestWords s)

/-- Lower-case hexadecimal digit. -/
def hexDigit (n : Nat) : Char := "0123456789abcdef".data.getD n '0'

/-- Fixed-width big-endian lower-case hexadecimal rendering
(the `padStart(2, '0')`-and-join encoding of `hashPassword`). -/
def toHexFixed : Nat → Nat → String
  | 0, _ => ""
  | d + 1, n => toHexFixed d (n / 16) ++ String.singleton (hexDigit (n % 16))

/-- `hashPassword` (utils/crypto.ts): hex encoding of the SHA-256 digest of
the UTF-8 bytes of the password. -/
def hashPassword (password : String) : String := toHexFixed 64 (digestNat password)

/-- `verifyPassword` (utils/crypto.ts): re-hash and compare. -/
def verifyPassword (password hash : String) : Bool := hashPassword password == hash

/-! ## Id and storage-key generation (utils/crypto.ts)

`generateId` consumes bytes from `crypto.getRandomValues`; the randomness is
made explicit as a byte-list parameter. -/

/-- The 62-character alphanumeric alphabet of `generateId`. -/
def idChars : String :=
  "ABCDEFGHIJKLMNOPQRSTUVWXYZabcdefghijklmnopqrstuvwxyz0123456789"

/-- `generateId` (utils/crypto.ts): one alphabet character per random byte,
indexed by the byte mod 62. -/
def generateId (randomBytes : List Nat) (length : Nat) : String :=
  String.mk ((List.range length).map fun i =>
    idChars.data.getD (randomBytes.getD i 0 % 62) 'A')

/-- The last `'.'`-separated segment of a string: the characters after the
last dot, or the whole string when it has no dot.  This is exactly JS
`s.split('.').pop()` (the separator is a single character). -/
def lastDotSegment (s : String) : String :=
  String.mk (s.data.reverse.takeWhile (fun c => c != '.')).reverse

/-- The first `'.'`-separated segment of a string: the characters before the
first dot, or the whole string when it has no dot.  This is exactly JS
`s.split('.')[0]`. -/
def firstDotSegment (s : String) : String :=
  String.mk (s.data.takeWhile fun c => c != '.')

/-- `generateSecureFilename` (utils/crypto.ts):
`extension = originalFilename.split('.').pop() || ''`, then a fresh
16-character id, with `.extension` appended when the extension is nonempty.
Note that JS `split('.').pop()` on a dot-free name returns the whole name. -/
def generateSecureFilename (randomBytes : List Nat) (originalFilename : String) : String :=
  let extension := lastDotSegment originalFilename
  let id := generateId randomBytes 16
  if extension ≠ "" then id ++ "." ++ extension else id

/-! ## Validation helpers (utils/validation.ts, source listed in README.md) -/

/-- `isExpired` (utils/validation.ts): `new Date() > new Date(expiresAt)`,
with the ambient clock made explicit. -/
def isExpired (expiresAt now : Nat) : Bool := decide (now > expiresAt)

/-- `isValidFileSize` (utils/validation.ts): `size > 0 && size <= maxSize`. -/
def isValidFileSize (size maxSize : Nat) : Bool :=
  decide (size > 0) && decide (size ≤ maxSize)

/-- `isValidExpiryHours` (utils/validation.ts): `hours > 0 && hours <= maxHours`. -/
def isValidExpiryHours (hours maxHours : Nat) : Bool :=
  decide (hours > 0) && decide (hours ≤ maxHours)

/-- The mime-type allow-list of `isAllowedFileType` (utils/validation.ts). -/
def allowedTypes : List String :=
  ["image/jpeg", "image/png", "image/gif", "image/webp", "image/svg+xml",
   "application/pdf", "text/plain", "text/markdown", "application/msword",
   "application/vnd.openxmlformats-officedocument.wordprocessingml.document",
   "application/vnd.ms-excel",
   "application/vnd.openxmlformats-officedocument.spreadsheetml.sheet",
   "application/vnd.ms-powerpoint",
   "application/vnd.openxmlformats-officedocument.presentationml.presentation",
   "application/zip", "application/x-rar-compressed", "application/x-7z-compressed",
   "application/x-tar", "application/gzip",
   "text/html", "text/css", "text/javascript", "application/javascript",
   "text/x-javascript", "application/json", "application/xml", "text/xml",
   "text/x-python", "application/x-python-code", "text/x-java-source",
   "text/x-c", "text/x-c++", "text/x-csharp", "text/x-php", "text/x-ruby",
   "text/x-go", "text/x-rust", "text/x-typescript", "application/typescript",
   "text/x-sql", "application/sql", "text/x-sh", "application/x-sh",
   "text/x-yaml", "application/x-yaml", "text/yaml", "application/yaml",
   "audio/mpeg", "audio/wav", "audio/ogg", "audio/mp4",
   "video/mp4", "video/webm", "video/ogg", "video/quicktime",
   "application/octet-stream"]

/-- `isAllowedFileType` (utils/validation.ts). -/
def isAllowedFileType (mimeType : String) : Bool := allowedTypes.contains mimeType

/-! ## Records (types/database.ts, schema in migrations/0001_initial.sql) -/

/-- `FileRecord` (types/database.ts).  Timestamps are naturals; optional
columns are `Option`. -/
structure FileRecord where
  id : String
  filename : String
  original_filename : String
  mime_type : String
  size : Nat
  created_at : Nat
  expires_at : Nat
  download_count : Nat
  max_downloads : Option Nat
  password_hash : Option String
  is_deleted : Bool
deriving Repr, DecidableEq

/-- `TextShareRecord` (types/database.ts). -/
structure TextShareRecord where
  id : String
  title : Option String
  content : String
  language : String
  created_at : Nat
  expires_at : Nat
  view_count : Nat
  max_views : Option Nat
  password_hash : Option String
  is_deleted : Bool
deriving Repr, DecidableEq

/-! ## DatabaseService (services/database.ts)

The metadata store is the list of rows in table order.  `SELECT … first()`
is `List.find?`; `UPDATE … WHERE` maps the update over every matching row. -/

/-- `DatabaseService.getFile`: `SELECT * FROM files WHERE id = ? AND
is_deleted = FALSE`, first row. -/
def getFile (files : List FileRecord) (id : String) : Option FileRecord :=
  files.find? fun r => r.id == id && !r.is_deleted

/-- `DatabaseService.incrementDownloadCount`: `UPDATE files SET
download_count = download_count + 1 WHERE id = ?`. -/
def incrementDownloadCount (files : List FileRecord) (id : String) : List FileRecord :=
  files.map fun r =>
    if r.id == id then { r with download_count := r.download_count + 1 } else r

/-- `DatabaseService.deleteFile`: `UPDATE files SET is_deleted = TRUE WHERE id = ?`. -/
def deleteFile (files : List FileRecord) (id : String) : List FileRecord :=
  files.map fun r => if r.id == id then { r with is_deleted := true } else r

/-- `DatabaseService.getTextShare`. -/
def getTextShare (shares : List TextShareRecord) (id : String) : Option TextShareRecord :=
  shares.find? fun r => r.id == id && !r.is_deleted

/-- `DatabaseService.incrementViewCount`. -/
def incrementViewCount (shares : List TextShareRecord) (id : String) : List TextShareRecord :=
  shares.map fun r =>
    if r.id == id then { r with view_count := r.view_count + 1 } else r

/-- `DatabaseService.deleteTextShare`. -/
def deleteTextShare (shares : List TextShareRecord) (id : String) : List TextShareRecord :=
  shares.map fun r => if r.id == id then { r with is_deleted := true } else r

/-- Row predicate of the expiry sweep: `expires_at < ? AND is_deleted = FALSE`. -/
def fileSweepHit (now : Nat) (r : FileRecord) : Bool :=
  decide (r.expires_at < now) && !r.is_deleted

/-- `DatabaseService.cleanupExpiredFiles`: `UPDATE files SET is_deleted = TRUE
WHERE expires_at < ? AND is_deleted = FALSE`; returns the updated table and
the number of changed rows (`result.meta.changes`). -/
def cleanupExpiredFiles (files : List FileRecord) (now : Nat) : List FileRecord × Nat :=
  (files.map fun r => if fileSweepHit now r then { r with is_deleted := true } else r,
   files.countP fun r => fileSweepHit now r)

/-- Accessibility verdict of `DatabaseService.isFileAccessible` /
`isTextShareAccessible`: a flag plus an optional reason string. -/
structure Accessibility where
  accessible : Bool
  reason : Option String
deriving Repr, DecidableEq

/-- `DatabaseService.isFileAccessible`: expired first, then the download
ceiling (`file.max_downloads && file.download_count >= file.max_downloads`,
with JS truthiness on `max_downloads`). -/
def isFileAccessible (file : FileRecord) (now : Nat) : Accessibility :=
  if isExpired file.expires_at now then
    ⟨false, some "expired"⟩
  else if truthyNum file.max_downloads &&
          decide (file.download_count ≥ file.max_downloads.getD 0) then
    ⟨false, some "download_limit_reached"⟩
  else
    ⟨true, none⟩

/-- `DatabaseService.isTextShareAccessible`. -/
def isTextShareAccessible (share : TextShareRecord) (now : Nat) : Accessibility :=
  if isExpired share.expires_at now then
    ⟨false, some "expired"⟩
  else if truthyNum share.max_views &&
          decide (share.view_count ≥ share.max_views.getD 0) then
    ⟨false, some "view_limit_reached"⟩
  else
    ⟨true, none⟩

/-! ## StorageService (services/storage.ts)

The R2 bucket is the list of stored objects (key, body) in listing order. -/

/-- `StorageService.downloadFile`: `bucket.get(key)`. -/
def downloadFile (bucket : List (String × String)) (key : String) : Option String :=
  (bucket.find? fun o => o.1 == key).map Prod.snd

/-- `StorageService.cleanupOrphanedFiles`: for every listed object, extract
`object.key.split('.')[0]` and delete the object unless that prefix occurs in
`validFileIds`.  Returns the surviving bucket and the deletion count. -/
def cleanupOrphanedFiles (bucket : List (String × String)) (validFileIds : List String) :
    List (String × String) × Nat :=
  (bucket.filter fun o => validFileIds.contains (firstDotSegment o.1),
   bucket.countP fun o => !validFileIds.contains (firstDotSegment o.1))

/-- The daily phase of `scheduled` (index.ts): collects
`SELECT id FROM files WHERE is_deleted = FALSE` and hands those ids to
`StorageService.cleanupOrphanedFiles`. -/
def scheduledReconcile (files : List FileRecord) (bucket : List (String × String)) :
    List (String × String) × Nat :=
  cleanupOrphanedFiles bucket ((files.filter fun f => !f.is_deleted).map fun f => f.id)

/-! ## Redemption handlers (handlers/download.ts, handlers/text.ts) -/

/-- Outcome of the file download handler `download.post('/download/:id')`. -/
inductive DlResponse where
  /-- `FILE_NOT_FOUND` 404: no live record. -/
  | notFound
  /-- `FILE_EXPIRED` 410. -/
  | expired
  /-- `DOWNLOAD_LIMIT_REACHED` 403. -/
  | limitReached
  /-- `INVALID_PASSWORD` 401 "Password required". -/
  | passwordRequired
  /-- `INVALID_PASSWORD` 401 "Invalid password". -/
  | passwordInvalid
  /-- `FILE_NOT_FOUND` 404 "File not found in storage". -/
  | storageMissing
  /-- `fileResponse(body, original_filename, mime_type, size)`. -/
  | file (body : String) (originalFilename : String) (mimeType : String) (size : Nat)
deriving Repr, DecidableEq

/-- `download.post('/download/:id')` (handlers/download.ts): record lookup,
accessibility check, password gate, blob fetch, then counter increment.
Returns the response together with the updated files table. -/
def downloadPost (files : List FileRecord) (bucket : List (String × String))
    (fileId : String) (password : Option String) (now : Nat) :
    DlResponse × List FileRecord :=
  match getFile files fileId with
  | none => (.notFound, files)
  | some file =>
    let accessibility := isFileAccessible file now
    if !accessibility.accessible && accessibility.reason == some "expired" then
      (.expired, files)
    else if !accessibility.accessible &&
            accessibility.reason == some "download_limit_reached" then
      (.limitReached, files)
    else if truthyStr file.password_hash then
      match password with
      | none => (.passwordRequired, files)
      | some p =>
        if !verifyPassword p (file.password_hash.getD "") then
          (.passwordInvalid, files)
        else
          match downloadFile bucket file.filename with
          | none => (.storageMissing, files)
          | some body =>
            (.file body file.original_filename file.mime_type file.size,
             incrementDownloadCount files fileId)
    else
      match downloadFile bucket file.filename with
      | none => (.storageMissing, files)
      | some body =>
        (.file body file.original_filename file.mime_type file.size,
         incrementDownloadCount files fileId)

/-- `true` exactly on the granted (file-returning) outcome. -/
def dlGranted : DlResponse → Bool
  | .file _ _ _ _ => true
  | _ => false

/-- The pure access decision taken by the redemption handlers
(accessibility check then password gate, first match wins). -/
inductive Decision where
  | allow
  | expired
  | limitReached
  | passwordRequired
  | passwordInvalid
deriving Repr, DecidableEq

/-- The decision prefix of `download.post('/download/:id')` over an
already-fetched record: lines 82–103 of handlers/download.ts
(`isFileAccessible` verdict, then the password checks). -/
def evaluateAccess (file : FileRecord) (now : Nat) (password : Option String) : Decision :=
  let accessibility := isFileAccessible file now
  if !accessibility.accessible && accessibility.reason == some "expired" then
    .expired
  else if !accessibility.accessible &&
          accessibility.reason == some "download_limit_reached" then
    .limitReached
  else if truthyStr file.password_hash then
    match password with
    | none => .passwordRequired
    | some p =>
      if !verifyPassword p (file.password_hash.getD "") then .passwordInvalid
      else .allow
  else .allow

/-- Body of a `TextShareInfoResponse` (types/api.ts). -/
structure TextShareInfoResponse where
  id : String
  title : Option String
  content : String
  language : String
  created_at : Nat
  expires_at : Nat
  view_count : Nat
  max_views : Option Nat
  has_password : Bool
  is_expired : Bool
  is_view_limit_reached : Bool
deriving Repr, DecidableEq

/-- `text.get('/info/:id')` (handlers/text.ts): builds the info response —
including the `content` field — for any live record, with no password
check.  `none` models the `FILE_NOT_FOUND` error response. -/
def textInfoGet (shares : List TextShareRecord) (textShareId : String) (now : Nat) :
    Option TextShareInfoResponse :=
  match getTextShare shares textShareId with
  | none => none
  | some textShare =>
    let accessibility := isTextShareAccessible textShare now
    some
      { id := textShare.id
        title := textShare.title
        content := textShare.content
        language := textShare.language
        created_at := textShare.created_at
        expires_at := textShare.expires_at
        view_count := textShare.view_count
        max_views := textShare.max_views
        has_password := truthyStr textShare.password_hash
        is_expired := isExpired textShare.expires_at now
        is_view_limit_reached := !accessibility.accessible &&
          accessibility.reason == some "view_limit_reached" }

/-- Outcome of the text view handler `text.post('/view/:id')`. -/
inductive TvResponse where
  | notFound
  | expired
  | limitReached
  | passwordRequired
  | passwordInvalid
  /-- `successResponse` with the full info body (including `content`). -/
  | info (body : TextShareInfoResponse)
deriving Repr, DecidableEq

/-- `text.post('/view/:id')` (handlers/text.ts): record lookup, accessibility
check, password gate, then counter increment and info body (the body reports
`view_count + 1` and recomputes the limit flag, as in lines 187–199). -/
def viewPost (shares : List TextShareRecord) (textShareId : String)
    (password : Option String) (now : Nat) : TvResponse × List TextShareRecord :=
  match getTextShare shares textShareId with
  | none => (.notFound, shares)
  | some textShare =>
    let accessibility := isTextShareAccessible textShare now
    if !accessibility.accessible && accessibility.reason == some "expired" then
      (.expired, shares)
    else if !accessibility.accessible &&
            accessibility.reason == some "view_limit_reached" then
      (.limitReached, shares)
    else if truthyStr textShare.password_hash then
      match password with
      | none => (.passwordRequired, shares)
      | some p =>
        if !verifyPassword p (textShare.password_hash.getD "") then
          (.passwordInvalid, shares)
        else
          (.info
            { id := textShare.id
              title := textShare.title
              content := textShare.content
              language := textShare.language
              created_at := textShare.created_at
              expires_at := textShare.expires_at
              view_count := textShare.view_count + 1
              max_views := textShare.max_views
              has_password := truthyStr textShare.password_hash
              is_expired := false
              is_view_limit_reached := truthyNum textShare.max_views &&
                decide (textShare.view_count + 1 ≥ textShare.max_views.getD 0) },
           incrementViewCount shares textShareId)
    else
      (.info
        { id := textShare.id
          title := textShare.title
          content := textShare.content
          language := textShare.language
          created_at := textShare.created_at
          expires_at := textShare.expires_at
          view_count := textShare.view_count + 1
          max_views := textShare.max_views
          has_password := truthyStr textShare.password_hash
          is_expired := false
          is_view_limit_reached := truthyNum textShare.max_views &&
            decide (textShare.view_count + 1 ≥ textShare.max_views.getD 0) },
       incrementViewCount shares textShareId)

/-- `true` exactly on the granted (content-returning) outcome. -/
def tvGranted : TvResponse → Bool
  | .info _ => true
  | _ => false

/-! ## Creation handlers (handlers/upload.ts, handlers/text.ts) -/

/-- The environment configuration consumed at creation time
(`MAX_FILE_SIZE`, `MAX_EXPIRY_HOURS`). -/
structure Env where
  maxFileSize : Nat
  maxExpiryHours : Nat
deriving Repr, DecidableEq

/-- The uploaded form file (`formData.get('file')`). -/
structure UploadedFile where
  name : String
  mimeType : String
  size : Nat
  content : String
deriving Repr, DecidableEq

/-- Characters replaced by `sanitizeFilename`'s first regex. -/
def dangerousChar (c : Char) : Bool :=
  c == '<' || c == '>' || c == ':' || c == '"' || c == '/' ||
  c == '\\' || c == '|' || c == '?' || c == '*'

/-- Collapse every whitespace run to a single `'_'` (the `/\s+/g → '_'`
replacement). -/
def collapseWs : List Char → List Char
  | [] => []
  | [c] => if c.isWhitespace then ['_'] else [c]
  | c1 :: c2 :: rest =>
    if c1.isWhitespace && c2.isWhitespace then collapseWs (c2 :: rest)
    else (if c1.isWhitespace then '_' else c1) :: collapseWs (c2 :: rest)

/-- `sanitizeFilename` (utils/crypto.ts): replace dangerous characters and
whitespace runs with `'_'`, truncate to 255. -/
def sanitizeFilename (filename : String) : String :=
  String.mk
    ((collapseWs (filename.data.map fun c => if dangerousChar c then '_' else c)).take 255)

/-- `calculateExpiryDate` (utils/validation.ts): now plus the requested hours
(milliseconds). -/
def calculateExpiryDate (hours now : Nat) : Nat := now + hours * 3600000

/-- The `Number(formData.get('expiry_hours')) || 24` coercion of upload.ts:
a missing / non-numeric / zero form value becomes the default 24. -/
def uploadExpiryHours : Option Nat → Nat
  | none => 24
  | some h => if h == 0 then 24 else h

/-- `uploadFileSchema.safeParse` (types/api.ts): `expiry_hours` in 1..168,
`max_downloads ≥ 1` when present, `password` nonempty when present. -/
def uploadSchemaOk (expiryHours : Nat) (maxDownloads : Option Nat)
    (password : Option String) : Bool :=
  decide (1 ≤ expiryHours) && decide (expiryHours ≤ 168) &&
  (match maxDownloads with | none => true | some m => decide (1 ≤ m)) &&
  (match password with | none => true | some p => decide (1 ≤ p.length))

/-- Outcome of `upload.post('/upload')`. -/
inductive UpResponse where
  /-- `VALIDATION_ERROR` 400 "No file provided". -/
  | noFile
  /-- `VALIDATION_ERROR` 400 "Invalid request parameters". -/
  | schemaInvalid
  /-- `FILE_TOO_LARGE` 400. -/
  | tooLarge
  /-- `UNSUPPORTED_FILE_TYPE` 400. -/
  | unsupportedType
  /-- `VALIDATION_ERROR` 400 "Expiry hours must be between 1 and …". -/
  | invalidExpiry
  /-- `successResponse` 201 with the new record's id. -/
  | created (id : String)
deriving Repr, DecidableEq

/-- `true` exactly on the created outcome. -/
def upCreated : UpResponse → Bool
  | .created _ => true
  | _ => false

/-- `upload.post('/upload')` (handlers/upload.ts): schema and bounds checks,
then `DatabaseService.createFile` (INSERT) and `StorageService.uploadFile`
(bucket put).  `idBytes`/`keyBytes` make the CSPRNG draws explicit. -/
def uploadPost (env : Env) (files : List FileRecord) (bucket : List (String × String))
    (file? : Option UploadedFile) (expiryRaw : Option Nat) (maxDownloads : Option Nat)
    (password : Option String) (idBytes keyBytes : List Nat) (now : Nat) :
    UpResponse × List FileRecord × List (String × String) :=
  match file? with
  | none => (.noFile, files, bucket)
  | some file =>
    let expiryHours := uploadExpiryHours expiryRaw
    if !uploadSchemaOk expiryHours maxDownloads password then
      (.schemaInvalid, files, bucket)
    else if !isValidFileSize file.size env.maxFileSize then
      (.tooLarge, files, bucket)
    else if !isAllowedFileType file.mimeType then
      (.unsupportedType, files, bucket)
    else if !isValidExpiryHours expiryHours env.maxExpiryHours then
      (.invalidExpiry, files, bucket)
    else
      let originalFilename := sanitizeFilename file.name
      let secureFilename := generateSecureFilename keyBytes originalFilename
      let record : FileRecord :=
        { id := generateId idBytes 12
          filename := secureFilename
          original_filename := originalFilename
          mime_type := file.mimeType
          size := file.size
          created_at := now
          expires_at := calculateExpiryDate expiryHours now
          download_count := 0
          max_downloads := maxDownloads
          password_hash := password.map hashPassword
          is_deleted := false }
      (.created record.id, files ++ [record], bucket ++ [(secureFilename, file.content)])

/-- `createTextShareSchema.safeParse` (types/api.ts): `title ≤ 200`,
`content` length 1..1000000, `language ≤ 50`, `expiry_hours` 1..168 when
present (default 24), `max_views ≥ 1` and nonempty `password` when present. -/
def textSchemaOk (title : Option String) (content : String) (language : Option String)
    (expiryRaw : Option Nat) (maxViews : Option Nat) (password : Option String) : Bool :=
  (match title with | none => true | some t => decide (t.length ≤ 200)) &&
  decide (1 ≤ content.length) && decide (content.length ≤ 1000000) &&
  (match language with | none => true | some l => decide (l.length ≤ 50)) &&
  (match expiryRaw with
   | none => true
   | some h => decide (1 ≤ h) && decide (h ≤ 168)) &&
  (match maxViews with | none => true | some m => decide (1 ≤ m)) &&
  (match password with | none => true | some p => decide (1 ≤ p.length))

/-- Outcome of `text.post('/create')`. -/
inductive TcResponse where
  /-- `VALIDATION_ERROR` 400 "Invalid request parameters". -/
  | schemaInvalid
  /-- `VALIDATION_ERROR` 400 "Expiry hours must be between 1 and …". -/
  | invalidExpiry
  /-- `successResponse` 201 with the new record's id. -/
  | created (id : String)
deriving Repr, DecidableEq

/-- `true` exactly on the created outcome. -/
def tcCreated : TcResponse → Bool
  | .created _ => true
  | _ => false

/-- `text.post('/create')` (handlers/text.ts): schema check, expiry-hours
check, then `DatabaseService.createTextShare` (INSERT). -/
def textCreatePost (env : Env) (shares : List TextShareRecord)
    (title : Option String) (content : String) (language : Option String)
    (expiryRaw : Option Nat) (maxViews : Option Nat) (password : Option String)
    (idBytes : List Nat) (now : Nat) : TcResponse × List TextShareRecord :=
  if !textSchemaOk title content language expiryRaw maxViews password then
    (.schemaInvalid, shares)
  else
    let expiryHours := expiryRaw.getD 24
    if !isValidExpiryHours expiryHours env.maxExpiryHours then
      (.invalidExpiry, shares)
    else
      let record : TextShareRecord :=
        { id := generateId idBytes 12
          title := title
          content := content
          language := language.getD "text"
          created_at := now
          expires_at := calculateExpiryDate expiryHours now
          view_count := 0
          max_views := maxViews
          password_hash := password.map hashPassword
          is_deleted := false }
      (.created record.id, shares ++ [record])

/-! ## Auxiliary definitions for the stated properties -/

/-- The mutating metadata-store operations cited by P4: counter increment,
soft delete, and the expiry sweep. -/
inductive FileOp where
  | increment (id : String)
  | softDelete (id : String)
  | sweep (now : Nat)
deriving Repr, DecidableEq

/-- Apply one store operation. -/
def applyFileOp (files : List FileRecord) : FileOp → List FileRecord
  | .increment id => incrementDownloadCount files id
  | .softDelete id => deleteFile files id
  | .sweep now => (cleanupExpiredFiles files now).1

/-- Apply a sequence of store operations, oldest first. -/
def applyFileOps (files : List FileRecord) (ops : List FileOp) : List FileRecord :=
  ops.foldl applyFileOp files

/-- `k` sequential invocations of the download redemption handler for one
file id, threading the files table. -/
def redeemIter (bucket : List (String × String)) (fileId : String)
    (password : Option String) (now : Nat) (files : List FileRecord) :
    Nat → List FileRecord
  | 0 => files
  | k + 1 => (downloadPost (redeemIter bucket fileId password now files k) bucket fileId password now).2

/-! ## Supporting lemmas -/

/-- Every digest word is a 32-bit value. -/
theorem digestWords_entries_lt (s : String) : ∀ x ∈ digestWords s, x < 4294967296 := by
  intro x hx
  simp only [digestWords, sha256Words, List.mem_map] at hx
  obtain ⟨y, -, rfl⟩ := hx
  exact Nat.mod_lt _ (by norm_num)

/-- Compression does not lengthen the running state. -/
theorem sha256Compress_length_le (H b : List Nat) :
    (sha256Compress H b).length ≤ H.length := by
  simp only [sha256Compress, List.length_zipWith]
  exact Nat.min_le_left _ _

/-- Chunk folding does not lengthen the running state. -/
theorem sha256Chunks_length_le :
    ∀ (fuel : Nat) (bytes H : List Nat), (sha256Chunks fuel bytes H).length ≤ H.length := by
  intro fuel
  induction fuel with
  | zero => intro bytes H; exact Nat.le_refl _
  | succ n ih =>
    intro bytes H
    cases bytes with
    | nil => exact Nat.le_refl _
    | cons b bs =>
      exact Nat.le_trans (ih _ _) (sha256Compress_length_le _ _)

/-- The digest has at most eight words. -/
theorem digestWords_length_le (s : String) : (digestWords s).length ≤ 8 := by
  simp only [digestWords, sha256Words, List.length_map]
  exact sha256Chunks_length_le _ _ _

/-- Big-endian recombination of bounded words is bounded. -/
theorem wordsToNat_lt :
    ∀ l : List Nat, (∀ x ∈ l, x < 4294967296) → wordsToNat l < 4294967296 ^ l.length := by
  intro l
  induction l with
  | nil => intro _; simp [wordsToNat]
  | cons w ws ih =>
    intro h
    have hw : w < 4294967296 := h w (List.mem_cons_self _ _)
    have hr : wordsToNat ws < 4294967296 ^ ws.length :=
      ih fun x hx => h x (List.mem_cons_of_mem _ hx)
    calc wordsToNat (w :: ws) = w * 4294967296 ^ ws.length + wordsToNat ws := rfl
      _ < w * 4294967296 ^ ws.length + 4294967296 ^ ws.length := Nat.add_lt_add_left hr _
      _ = (w + 1) * 4294967296 ^ ws.length := by ring
      _ ≤ 4294967296 * 4294967296 ^ ws.length := Nat.mul_le_mul_right _ hw
      _ = 4294967296 ^ (ws.length + 1) := by ring

/-- The 256-bit digest value is below `2 ^ 256`. -/
theorem digestNat_lt (s : String) : digestNat s < 2 ^ 256 := by
  have h1 := wordsToNat_lt (digestWords s) (digestWords_entries_lt s)
  have h2 : (4294967296 : Nat) ^ (digestWords s).length ≤ 4294967296 ^ 8 :=
    Nat.pow_le_pow_right (by norm_num) (digestWords_length_le s)
  have h3 : (4294967296 : Nat) ^ 8 = 2 ^ 256 := by norm_num
  exact lt_of_lt_of_le h1 (h3 ▸ h2)

/-! ## Claim C8 — password round-trip -/

/-- C8, counterexample.  The claim "`verifySecret(p2, hashSecret(p))` returns
false for every pair of distinct plaintexts" is false for the code's hash:
`hashPassword` maps the infinitely many plaintexts into the finitely many
256-bit digests, so two distinct plaintexts share a digest and the second
verifies against the first's hash. -/
theorem c8_distinct_plaintexts_can_verify :
    ¬ (∀ p p2 : String, p ≠ p2 → verifyPassword p2 (hashPassword p) = false) := by
  intro hcl
  obtain ⟨m, n, hmn, heq⟩ :=
    Finite.exists_ne_map_eq_of_infinite
      (fun k : Nat => (⟨digestNat (String.mk (List.replicate k 'a')), digestNat_lt _⟩ : Fin (2 ^ 256)))
  have hdg : digestNat (String.mk (List.replicate m 'a')) =
      digestNat (String.mk (List.replicate n 'a')) := congrArg Fin.val heq
  have hh : hashPassword (String.mk (List.replicate m 'a')) =
      hashPassword (String.mk (List.replicate n 'a')) := congrArg (toHexFixed 64) hdg
  have hne : String.mk (List.replicate m 'a') ≠ String.mk (List.replicate n 'a') := by
    intro h
    apply hmn
    have hlen := congrArg String.length h
    simpa [String.length] using hlen
  have hfalse := hcl _ _ hne
  rw [verifyPassword, ← hh] at hfalse
  simp at hfalse

/-- C8, amended: `verifyPassword p (hashPassword p)` is true for every `p`,
and `verifyPassword p2 (hashPassword p)` succeeds exactly when the two
plaintexts have equal hashes (so it is false whenever the hashes differ, but
colliding distinct plaintexts do verify). -/
theorem c8_verify_iff_hash_eq :
    (∀ p : String, verifyPassword p (hashPassword p) = true) ∧
    (∀ p p2 : String, verifyPassword p2 (hashPassword p) = true ↔
      hashPassword p2 = hashPassword p) := by
  constructor
  · intro p; simp [verifyPassword]
  · intro p p2; simp [verifyPassword]

/-! ## Claim C6 — secure storage-key generation -/

/-- C6: for the non-empty, dot-free original filename `"test"`,
`generateSecureFilename` does not return the bare 16-character id: JS
`split('.').pop()` yields the whole name, so the code appends `".test"`.
This contradicts the claim (and the repository's own unit test
`utils.test.ts`, which expects `/^[A-Za-z0-9]{16}$/`). -/
theorem c6_dotless_filename_gets_extension :
    generateSecureFilename (List.replicate 16 0) "test" = "AAAAAAAAAAAAAAAA.test" ∧
    generateSecureFilename (List.replicate 16 0) "test" ≠
      generateId (List.replicate 16 0) 16 := by
  decide

/-! ## Claim C1 — reconciliation sweep -/

/-- C1: the scheduled daily reconciliation deletes live blobs.  With one
non-deleted file record (id `"aaaaaaaaaaaa"`, storage key
`"ABCDEFGHIJKLMNOP.txt"`) and a bucket holding exactly the live blob plus one
orphan, the sweep deletes **both** objects (count 2, empty bucket), because
`cleanupOrphanedFiles` compares the key's first dot-segment against record
ids, and storage keys are minted independently of record ids. -/
theorem c1_reconcile_deletes_live_blob :
    scheduledReconcile
      [{ id := "aaaaaaaaaaaa", filename := "ABCDEFGHIJKLMNOP.txt",
         original_filename := "x.txt", mime_type := "text/plain", size := 3,
         created_at := 0, expires_at := 1000, download_count := 0,
         max_downloads := none, password_hash := none, is_deleted := false }]
      [("ABCDEFGHIJKLMNOP.txt", "live-bytes"), ("QRSTUVWXYZQRSTUV.bin", "orphan-bytes")] =
      ([], 2) := by
  decide

/-! ## Claim C2 — informational reads -/

/-- C2: the text-share info endpoint reveals password-gated content.  For a
live record whose `password_hash` is set, `text.get('/info/:id')` (which
accepts no password at all) returns a response whose `content` field is the
full stored text. -/
theorem c2_text_info_returns_gated_content :
    (textInfoGet
      [{ id := "tttttttttttt", title := none, content := "top-secret-content",
         language := "text", created_at := 0, expires_at := 1000, view_count := 0,
         max_views := none, password_hash := some "deadbeef", is_deleted := false }]
      "tttttttttttt" 0).map (fun r => (r.content, r.has_password)) =
      some ("top-secret-content", true) := by
  decide

/-! ## Claim C3 — fixed order of access checks -/

/-- C3: the redemption decision applies its checks in the fixed order
expiry, usage limit, password-required, password-invalid, first match
winning.  In particular an expired artifact is denied `EXPIRED` regardless of
password and counter, and a limit-reached artifact that is not expired is
denied `USAGE_LIMIT_REACHED` even when the password is wrong or absent. -/
theorem c3_access_check_order :
    ∀ (file : FileRecord) (now : Nat) (password : Option String),
    (isExpired file.expires_at now = true →
      evaluateAccess file now password = .expired) ∧
    (isExpired file.expires_at now = false →
      ∀ m, file.max_downloads = some m → 1 ≤ m → m ≤ file.download_count →
      evaluateAccess file now password = .limitReached) ∧
    (isExpired file.expires_at now = false →
      (truthyNum file.max_downloads &&
        decide (file.download_count ≥ file.max_downloads.getD 0)) = false →
      truthyStr file.password_hash = true →
      password = none →
      evaluateAccess file now password = .passwordRequired) ∧
    (isExpired file.expires_at now = false →
      (truthyNum file.max_downloads &&
        decide (file.download_count ≥ file.max_downloads.getD 0)) = false →
      truthyStr file.password_hash = true →
      ∀ p, password = some p →
      verifyPassword p (file.password_hash.getD "") = false →
      evaluateAccess file now password = .passwordInvalid) ∧
    (isExpired file.expires_at now = false →
      (truthyNum file.max_downloads &&
        decide (file.download_count ≥ file.max_downloads.getD 0)) = false →
      (truthyStr file.password_hash = false ∨
        ∃ p, password = some p ∧
          verifyPassword p (file.password_hash.getD "") = true) →
      evaluateAccess file now password = .allow) := by
  intro file now password
  refine ⟨?_, ?_, ?_, ?_, ?_⟩
  · intro hexp
    simp [evaluateAccess, isFileAccessible, hexp]
  · intro hexp m hm h1 hcnt
    have hm0 : m ≠ 0 := Nat.one_le_iff_ne_zero.mp h1
    simp [evaluateAccess, isFileAccessible, hexp, hm, truthyNum, hm0, hcnt]
  · intro hexp hlim hpw hnone
    subst hnone
    simp [evaluateAccess, isFileAccessible, hexp, hlim, hpw]
  · intro hexp hlim hpw p hp hver
    subst hp
    simp [evaluateAccess, isFileAccessible, hexp, hlim, hpw, hver]
  · intro hexp hlim hall
    rcases hall with hno | ⟨p, hp, hver⟩
    · simp [evaluateAccess, isFileAccessible, hexp, hlim, hno]
    · subst hp
      simp [evaluateAccess, isFileAccessible, hexp, hlim, hver]

set_option maxRecDepth 1000000 in
/-- Witness for C3: each branch of the ordering contract exercised on a
concrete artifact. -/
theorem c3_access_check_order_witness :
    evaluateAccess
      { id := "f1", filename := "k1", original_filename := "a", mime_type := "text/plain",
        size := 1, created_at := 0, expires_at := 10, download_count := 5,
        max_downloads := some 3, password_hash := some "deadbeef", is_deleted := false }
      20 (some "pw") = .expired ∧
    evaluateAccess
      { id := "f2", filename := "k2", original_filename := "a", mime_type := "text/plain",
        size := 1, created_at := 0, expires_at := 100, download_count := 2,
        max_downloads := some 2, password_hash := some "deadbeef", is_deleted := false }
      20 (some "wrong") = .limitReached ∧
    evaluateAccess
      { id := "f3", filename := "k3", original_filename := "a", mime_type := "text/plain",
        size := 1, created_at := 0, expires_at := 100, download_count := 0,
        max_downloads := none, password_hash := some "deadbeef", is_deleted := false }
      20 none = .passwordRequired ∧
    evaluateAccess
      { id := "f4", filename := "k4", original_filename := "a", mime_type := "text/plain",
        size := 1, created_at := 0, expires_at := 100, download_count := 0,
        max_downloads := none, password_hash := some "deadbeef", is_deleted := false }
      20 (some "wrong") = .passwordInvalid ∧
    evaluateAccess
      { id := "f5", filename := "k5", original_filename := "a", mime_type := "text/plain",
        size := 1, created_at := 0, expires_at := 100, download_count := 0,
        max_downloads := none, password_hash := none, is_deleted := false }
      20 none = .allow := by
  refine ⟨?_, ?_, ?_, ?_, ?_⟩
  · exact (c3_access_check_order _ 20 (some "pw")).1 (by decide)
  · exact (c3_access_check_order _ 20 (some "wrong")).2.1 (by decide) 2 rfl
      (by decide) (by decide)
  · exact (c3_access_check_order _ 20 none).2.2.1 (by decide) (by decide)
      (by decide) rfl
  · exact (c3_access_check_order _ 20 (some "wrong")).2.2.2.1 (by decide) (by decide)
      (by decide) "wrong" rfl (by decide)
  · exact (c3_access_check_order _ 20 none).2.2.2.2 (by decide) (by decide)
      (Or.inl (by decide))

/-! ## Claim C7 — soft delete hides; the expiry sweep is idempotent -/

/-- After `deleteFile`, every row carrying the deleted id is flagged. -/
theorem deleteFile_hides (files : List FileRecord) (id : String) :
    ∀ r ∈ deleteFile files id, r.id = id → r.is_deleted = true := by
  intro r hr hid
  simp only [deleteFile, List.mem_map] at hr
  obtain ⟨s, hs, rfl⟩ := hr
  by_cases hj : s.id == id
  · simp [hj]
  · simp only [hj, Bool.false_eq_true, if_false] at hid ⊢
    exact absurd hid (by simpa using hj)

/-- The store operations never clear the soft-delete flag of a given id. -/
theorem applyFileOp_preserves_hidden {files : List FileRecord} {id : String}
    (h : ∀ r ∈ files, r.id = id → r.is_deleted = true) (op : FileOp) :
    ∀ r ∈ applyFileOp files op, r.id = id → r.is_deleted = true := by
  intro r hr hid
  cases op with
  | increment j =>
    simp only [applyFileOp, incrementDownloadCount, List.mem_map] at hr
    obtain ⟨s, hs, rfl⟩ := hr
    by_cases hj : s.id == j <;> simp only [hj] at hid ⊢ <;>
      simp only [if_true, if_false, Bool.false_eq_true] at hid ⊢ <;>
      exact h s hs hid
  | softDelete j =>
    simp only [applyFileOp, deleteFile, List.mem_map] at hr
    obtain ⟨s, hs, rfl⟩ := hr
    by_cases hj : s.id == j
    · simp [hj]
    · simp only [hj, Bool.false_eq_true, if_false] at hid ⊢
      exact h s hs hid
  | sweep n =>
    simp only [applyFileOp, cleanupExpiredFiles, List.mem_map] at hr
    obtain ⟨s, hs, rfl⟩ := hr
    by_cases hhit : fileSweepHit n s
    · simp [hhit]
    · simp only [hhit, Bool.false_eq_true, if_false] at hid ⊢
      exact h s hs hid

/-- A fully flagged id is invisible to `getFile`. -/
theorem getFile_eq_none_of_hidden {files : List FileRecord} {id : String}
    (h : ∀ r ∈ files, r.id = id → r.is_deleted = true) : getFile files id = none := by
  apply List.find?_eq_none.mpr
  intro r hr
  simp only [Bool.and_eq_true, beq_iff_eq, Bool.not_eq_true', not_and]
  intro hid
  rw [h r hr hid]
  simp

/-- The flag invariant survives any operation sequence. -/
theorem applyFileOps_preserves_hidden :
    ∀ (ops : List FileOp) (files : List FileRecord) (id : String),
    (∀ r ∈ files, r.id = id → r.is_deleted = true) →
    ∀ r ∈ applyFileOps files ops, r.id = id → r.is_deleted = true := by
  intro ops
  induction ops with
  | nil => intro files id h; simpa [applyFileOps] using h
  | cons op rest ih =>
    intro files id h
    have : applyFileOps files (op :: rest) = applyFileOps (applyFileOp files op) rest := by
      simp [applyFileOps]
    rw [this]
    exact ih _ _ (applyFileOp_preserves_hidden h op)

/-- C7: after `deleteFile id`, `getFile id` stays `none` under any further
sequence of increments, soft deletes and sweeps; and running
`cleanupExpiredFiles` twice with the same clock flags 0 additional rows on
the second run. -/
theorem c7_soft_delete_hides_and_sweep_idempotent :
    (∀ (files : List FileRecord) (id : String) (ops : List FileOp),
      getFile (applyFileOps (deleteFile files id) ops) id = none) ∧
    (∀ (files : List FileRecord) (now : Nat),
      (cleanupExpiredFiles (cleanupExpiredFiles files now).1 now).2 = 0) := by
  constructor
  · intro files id ops
    exact getFile_eq_none_of_hidden
      (applyFileOps_preserves_hidden ops _ id (deleteFile_hides files id))
  · intro files now
    simp only [cleanupExpiredFiles]
    rw [List.countP_eq_zero]
    intro r hr
    simp only [List.mem_map] at hr
    obtain ⟨s, hs, rfl⟩ := hr
    by_cases hhit : fileSweepHit now s
    · simp only [hhit, if_true]
      simp [fileSweepHit]
    · have hf : fileSweepHit now s = false := by simpa using hhit
      simp [hf]

/-! ## Claims C9, C10 — creation-time validation -/

/-- Any failed upload check yields an error response and leaves both the
files table and the bucket untouched. -/
theorem uploadPost_rejects {env : Env} {files : List FileRecord}
    {bucket : List (String × String)} {f : UploadedFile} {expiryRaw maxDownloads : Option Nat}
    {password : Option String} {idBytes keyBytes : List Nat} {now : Nat}
    (h : isValidFileSize f.size env.maxFileSize = false ∨
         isAllowedFileType f.mimeType = false ∨
         isValidExpiryHours (uploadExpiryHours expiryRaw) env.maxExpiryHours = false ∨
         uploadSchemaOk (uploadExpiryHours expiryRaw) maxDownloads password = false) :
    upCreated (uploadPost env files bucket (some f) expiryRaw maxDownloads password
      idBytes keyBytes now).1 = false ∧
    (uploadPost env files bucket (some f) expiryRaw maxDownloads password
      idBytes keyBytes now).2.1 = files ∧
    (uploadPost env files bucket (some f) expiryRaw maxDownloads password
      idBytes keyBytes now).2.2 = bucket := by
  simp only [uploadPost]
  split_ifs with h1 h2 h3 h4
  · exact ⟨rfl, rfl, rfl⟩
  · exact ⟨rfl, rfl, rfl⟩
  · exact ⟨rfl, rfl, rfl⟩
  · exact ⟨rfl, rfl, rfl⟩
  · exfalso
    simp only [Bool.not_eq_true', Bool.not_eq_false] at h1 h2 h3 h4
    rcases h with hs | ht | he | hsc
    · rw [h2] at hs; exact absurd hs (by simp)
    · rw [h3] at ht; exact absurd ht (by simp)
    · rw [h4] at he; exact absurd he (by simp)
    · rw [h1] at hsc; exact absurd hsc (by simp)

/-- Any failed text-share check yields an error response and leaves the
shares table untouched. -/
theorem textCreatePost_rejects {env : Env} {shares : List TextShareRecord}
    {title : Option String} {content : String} {language : Option String}
    {expiryRaw maxViews : Option Nat} {password : Option String}
    {idBytes : List Nat} {now : Nat}
    (h : textSchemaOk title content language expiryRaw maxViews password = false ∨
         isValidExpiryHours (expiryRaw.getD 24) env.maxExpiryHours = false) :
    tcCreated (textCreatePost env shares title content language expiryRaw maxViews
      password idBytes now).1 = false ∧
    (textCreatePost env shares title content language expiryRaw maxViews
      password idBytes now).2 = shares := by
  simp only [textCreatePost]
  split_ifs with h1 h2
  · exact ⟨rfl, rfl⟩
  · exact ⟨rfl, rfl⟩
  · exfalso
    simp only [Bool.not_eq_true', Bool.not_eq_false] at h1 h2
    rcases h with hs | he
    · rw [h1] at hs; exact absurd hs (by simp)
    · rw [h2] at he; exact absurd he (by simp)

/-- C9: a creation request outside the accepted bounds — file size above the
configured maximum, mime type outside the allow-list, or expiry hours outside
the permitted range (for either the file-upload or the text-share handler) —
is answered with a validation-class error and performs no state change: no
metadata record is inserted and no blob is written. -/
theorem c9_invalid_creation_rejected_without_state_change :
    (∀ (env : Env) (files : List FileRecord) (bucket : List (String × String))
       (f : UploadedFile) (expiryRaw maxDownloads : Option Nat)
       (password : Option String) (idBytes keyBytes : List Nat) (now : Nat),
      (env.maxFileSize < f.size ∨
       isAllowedFileType f.mimeType = false ∨
       ¬ (1 ≤ uploadExpiryHours expiryRaw ∧ uploadExpiryHours expiryRaw ≤ 168 ∧
          uploadExpiryHours expiryRaw ≤ env.maxExpiryHours)) →
      upCreated (uploadPost env files bucket (some f) expiryRaw maxDownloads password
        idBytes keyBytes now).1 = false ∧
      (uploadPost env files bucket (some f) expiryRaw maxDownloads password
        idBytes keyBytes now).2.1 = files ∧
      (uploadPost env files bucket (some f) expiryRaw maxDownloads password
        idBytes keyBytes now).2.2 = bucket) ∧
    (∀ (env : Env) (shares : List TextShareRecord) (title : Option String)
       (content : String) (language : Option String) (expiryRaw maxViews : Option Nat)
       (password : Option String) (idBytes : List Nat) (now : Nat),
      (¬ (1 ≤ content.length ∧ content.length ≤ 1000000) ∨
       (∃ h, expiryRaw = some h ∧
         ¬ (1 ≤ h ∧ h ≤ 168 ∧ h ≤ env.maxExpiryHours))) →
      tcCreated (textCreatePost env shares title content language expiryRaw maxViews
        password idBytes now).1 = false ∧
      (textCreatePost env shares title content language expiryRaw maxViews
        password idBytes now).2 = shares) := by
  constructor
  · intro env files bucket f expiryRaw maxDownloads password idBytes keyBytes now h
    apply uploadPost_rejects
    rcases h with hs | ht | he
    · left
      simp only [isValidFileSize, Bool.and_eq_false_iff, decide_eq_false_iff_not, not_le]
      right
      omega
    · right; left; exact ht
    · by_cases hr : 1 ≤ uploadExpiryHours expiryRaw ∧ uploadExpiryHours expiryRaw ≤ 168
      · right; right; left
        simp only [isValidExpiryHours, Bool.and_eq_false_iff, decide_eq_false_iff_not, not_le]
        right
        omega
      · right; right; right
        have hab : (decide (1 ≤ uploadExpiryHours expiryRaw) &&
            decide (uploadExpiryHours expiryRaw ≤ 168)) = false := by
          simp only [Bool.and_eq_false_iff, decide_eq_false_iff_not]
          omega
        simp only [uploadSchemaOk, hab, Bool.false_and]
  · intro env shares title content language expiryRaw maxViews password idBytes now h
    apply textCreatePost_rejects
    rcases h with hc | ⟨hh, hraw, hout⟩
    · left
      by_cases h1 : 1 ≤ content.length
      · have hc2 : decide (content.length ≤ 1000000) = false := by
          simp only [decide_eq_false_iff_not]
          omega
        simp only [textSchemaOk, hc2, Bool.and_false, Bool.false_and]
      · have hc1 : decide (1 ≤ content.length) = false := by
          simp only [decide_eq_false_iff_not]
          omega
        simp only [textSchemaOk, hc1, Bool.and_false, Bool.false_and]
    · by_cases hr : 1 ≤ hh ∧ hh ≤ 168
      · right
        rw [hraw]
        simp only [Option.getD_some, isValidExpiryHours, Bool.and_eq_false_iff,
          decide_eq_false_iff_not, not_le]
        right
        omega
      · left
        rw [hraw]
        simp only [textSchemaOk, Bool.and_eq_false_iff, decide_eq_false_iff_not, not_le]
        left; left
        right
        omega

/-- Witness for C9: an oversized upload (size 10 against a 5-byte maximum)
and an empty text share are both rejected with no state change. -/
theorem c9_invalid_creation_rejected_witness :
    (upCreated (uploadPost ⟨5, 168⟩ [] [] (some ⟨"a.txt", "text/plain", 10, "x"⟩)
        (some 24) none none [] [] 0).1 = false ∧
      (uploadPost ⟨5, 168⟩ [] [] (some ⟨"a.txt", "text/plain", 10, "x"⟩)
        (some 24) none none [] [] 0).2.1 = [] ∧
      (uploadPost ⟨5, 168⟩ [] [] (some ⟨"a.txt", "text/plain", 10, "x"⟩)
        (some 24) none none [] [] 0).2.2 = []) ∧
    (tcCreated (textCreatePost ⟨5, 168⟩ [] none "" none (some 24) none none [] 0).1 = false ∧
      (textCreatePost ⟨5, 168⟩ [] none "" none (some 24) none none [] 0).2 = []) :=
  ⟨(c9_invalid_creation_rejected_without_state_change).1 ⟨5, 168⟩ [] []
      ⟨"a.txt", "text/plain", 10, "x"⟩ (some 24) none none [] [] 0 (Or.inl (by decide)),
   (c9_invalid_creation_rejected_without_state_change).2 ⟨5, 168⟩ [] none "" none
      (some 24) none none [] 0 (Or.inl (by decide))⟩

/-- C10: a zero-byte upload is rejected — `isValidFileSize` demands a size
strictly greater than 0 — and no record or blob is persisted, even though 0
never exceeds the configured maximum. -/
theorem c10_zero_size_upload_rejected :
    (∀ maxSize : Nat, isValidFileSize 0 maxSize = false) ∧
    (∀ (env : Env) (files : List FileRecord) (bucket : List (String × String))
       (f : UploadedFile) (expiryRaw maxDownloads : Option Nat)
       (password : Option String) (idBytes keyBytes : List Nat) (now : Nat),
      f.size = 0 →
      upCreated (uploadPost env files bucket (some f) expiryRaw maxDownloads password
        idBytes keyBytes now).1 = false ∧
      (uploadPost env files bucket (some f) expiryRaw maxDownloads password
        idBytes keyBytes now).2.1 = files ∧
      (uploadPost env files bucket (some f) expiryRaw maxDownloads password
        idBytes keyBytes now).2.2 = bucket) := by
  constructor
  · intro maxSize
    simp [isValidFileSize]
  · intro env files bucket f expiryRaw maxDownloads password idBytes keyBytes now hz
    apply uploadPost_rejects
    left
    simp [isValidFileSize, hz]

/-- Witness for C10: a concrete empty upload is rejected and both stores are
left unchanged. -/
theorem c10_zero_size_upload_rejected_witness :
    upCreated (uploadPost ⟨1000, 168⟩ [] [] (some ⟨"empty.txt", "text/plain", 0, ""⟩)
        (some 24) none none [] [] 0).1 = false ∧
    (uploadPost ⟨1000, 168⟩ [] [] (some ⟨"empty.txt", "text/plain", 0, ""⟩)
        (some 24) none none [] [] 0).2.1 = [] ∧
    (uploadPost ⟨1000, 168⟩ [] [] (some ⟨"empty.txt", "text/plain", 0, ""⟩)
        (some 24) none none [] [] 0).2.2 = [] :=
  (c10_zero_size_upload_rejected).2 ⟨1000, 168⟩ [] [] ⟨"empty.txt", "text/plain", 0, ""⟩
    (some 24) none none [] [] 0 rfl

/-! ## Claim C4 — counter increments happen exactly on granted redemptions -/

/-- Incrementing an id bumps the count of the record `getFile` returns for
that id by exactly one. -/
theorem getFile_increment_same (files : List FileRecord) (id : String) :
    getFile (incrementDownloadCount files id) id =
      (getFile files id).map (fun f => { f with download_count := f.download_count + 1 }) := by
  induction files with
  | nil => rfl
  | cons r rest ih =>
    by_cases hb : r.id == id
    · by_cases hd : r.is_deleted
      · simp [getFile, incrementDownloadCount, List.find?, hb, hd] at ih ⊢
        exact ih
      · simp [getFile, incrementDownloadCount, List.find?, hb, hd]
    · simp [getFile, incrementDownloadCount, List.find?, hb] at ih ⊢
      exact ih

/-- Incrementing an id leaves `getFile` unchanged at every other id. -/
theorem getFile_increment_other (files : List FileRecord) (id j : String) (hj : j ≠ id) :
    getFile (incrementDownloadCount files id) j = getFile files j := by
  induction files with
  | nil => rfl
  | cons r rest ih =>
    by_cases hb : r.id == id
    · have hbj : (r.id == j) = false := by
        have hr : r.id = id := by simpa using hb
        rw [hr, beq_eq_false_iff_ne]
        exact fun h => hj h.symm
      simp [getFile, incrementDownloadCount, List.find?, hb, hbj] at ih ⊢
      exact ih
    · by_cases hbj : r.id == j
      · by_cases hd : r.is_deleted
        · simp [getFile, incrementDownloadCount, List.find?, hb, hbj, hd] at ih ⊢
          exact ih
        · simp [getFile, incrementDownloadCount, List.find?, hb, hbj, hd]
      · simp [getFile, incrementDownloadCount, List.find?, hb, hbj] at ih ⊢
        exact ih

/-- The download handler either leaves the table unchanged (any denial) or
increments the requested id (the granted outcome). -/
theorem downloadPost_state (files : List FileRecord) (bucket : List (String × String))
    (fileId : String) (password : Option String) (now : Nat) :
    ((downloadPost files bucket fileId password now).2 = files ∧
      dlGranted (downloadPost files bucket fileId password now).1 = false) ∨
    ((downloadPost files bucket fileId password now).2 =
        incrementDownloadCount files fileId ∧
      dlGranted (downloadPost files bucket fileId password now).1 = true) := by
  unfold downloadPost
  rcases hf : getFile files fileId with _ | file
  · exact Or.inl ⟨rfl, rfl⟩
  · simp only
    split_ifs with h1 h2 h3
    · exact Or.inl ⟨rfl, rfl⟩
    · exact Or.inl ⟨rfl, rfl⟩
    · rcases password with _ | p
      · exact Or.inl ⟨rfl, rfl⟩
      · dsimp only
        split_ifs with h4
        · exact Or.inl ⟨rfl, rfl⟩
        · rcases hb : downloadFile bucket file.filename with _ | body
          · exact Or.inl ⟨rfl, rfl⟩
          · exact Or.inr ⟨rfl, rfl⟩
    · rcases hb : downloadFile bucket file.filename with _ | body
      · exact Or.inl ⟨rfl, rfl⟩
      · exact Or.inr ⟨rfl, rfl⟩

/-- Incrementing a text-share id bumps the count `getTextShare` reports by
exactly one. -/
theorem getTextShare_increment_same (shares : List TextShareRecord) (id : String) :
    getTextShare (incrementViewCount shares id) id =
      (getTextShare shares id).map (fun t => { t with view_count := t.view_count + 1 }) := by
  induction shares with
  | nil => rfl
  | cons r rest ih =>
    by_cases hb : r.id == id
    · by_cases hd : r.is_deleted
      · simp [getTextShare, incrementViewCount, List.find?, hb, hd] at ih ⊢
        exact ih
      · simp [getTextShare, incrementViewCount, List.find?, hb, hd]
    · simp [getTextShare, incrementViewCount, List.find?, hb] at ih ⊢
      exact ih

/-- Incrementing a text-share id leaves every other id unchanged. -/
theorem getTextShare_increment_other (shares : List TextShareRecord) (id j : String)
    (hj : j ≠ id) :
    getTextShare (incrementViewCount shares id) j = getTextShare shares j := by
  induction shares with
  | nil => rfl
  | cons r rest ih =>
    by_cases hb : r.id == id
    · have hbj : (r.id == j) = false := by
        have hr : r.id = id := by simpa using hb
        rw [hr, beq_eq_false_iff_ne]
        exact fun h => hj h.symm
      simp [getTextShare, incrementViewCount, List.find?, hb, hbj] at ih ⊢
      exact ih
    · by_cases hbj : r.id == j
      · by_cases hd : r.is_deleted
        · simp [getTextShare, incrementViewCount, List.find?, hb, hbj, hd] at ih ⊢
          exact ih
        · simp [getTextShare, incrementViewCount, List.find?, hb, hbj, hd]
      · simp [getTextShare, incrementViewCount, List.find?, hb, hbj] at ih ⊢
        exact ih

/-- The text view handler either leaves the table unchanged (any denial) or
increments the requested id (the granted outcome). -/
theorem viewPost_state (shares : List TextShareRecord) (textShareId : String)
    (password : Option String) (now : Nat) :
    ((viewPost shares textShareId password now).2 = shares ∧
      tvGranted (viewPost shares textShareId password now).1 = false) ∨
    ((viewPost shares textShareId password now).2 =
        incrementViewCount shares textShareId ∧
      tvGranted (viewPost shares textShareId password now).1 = true) := by
  unfold viewPost
  rcases hf : getTextShare shares textShareId with _ | share
  · exact Or.inl ⟨rfl, rfl⟩
  · simp only
    split_ifs with h1 h2 h3
    · exact Or.inl ⟨rfl, rfl⟩
    · exact Or.inl ⟨rfl, rfl⟩
    · rcases password with _ | p
      · exact Or.inl ⟨rfl, rfl⟩
      · dsimp only
        split_ifs with h4
        · exact Or.inl ⟨rfl, rfl⟩
        · exact Or.inr ⟨rfl, rfl⟩
    · exact Or.inr ⟨rfl, rfl⟩

/-- C4: for both artifact kinds, the usage counter changes only on a granted
redemption, and then by exactly one for the redeemed id: every denial
(not-found, expired, limit reached, password required/invalid, missing blob)
leaves the table identical, and a grant increments the redeemed record's
counter by one while every other id reads back unchanged. -/
theorem c4_counter_increment_iff_granted :
    (∀ (files : List FileRecord) (bucket : List (String × String)) (id : String)
       (password : Option String) (now : Nat),
      (dlGranted (downloadPost files bucket id password now).1 = false →
        (downloadPost files bucket id password now).2 = files) ∧
      (dlGranted (downloadPost files bucket id password now).1 = true →
        (downloadPost files bucket id password now).2 = incrementDownloadCount files id ∧
        getFile (downloadPost files bucket id password now).2 id =
          (getFile files id).map
            (fun f => { f with download_count := f.download_count + 1 }) ∧
        ∀ j, j ≠ id →
          getFile (downloadPost files bucket id password now).2 j = getFile files j)) ∧
    (∀ (shares : List TextShareRecord) (id : String) (password : Option String) (now : Nat),
      (tvGranted (viewPost shares id password now).1 = false →
        (viewPost shares id password now).2 = shares) ∧
      (tvGranted (viewPost shares id password now).1 = true →
        (viewPost shares id password now).2 = incrementViewCount shares id ∧
        getTextShare (viewPost shares id password now).2 id =
          (getTextShare shares id).map
            (fun t => { t with view_count := t.view_count + 1 }) ∧
        ∀ j, j ≠ id →
          getTextShare (viewPost shares id password now).2 j = getTextShare shares j)) := by
  constructor
  · intro files bucket id password now
    rcases downloadPost_state files bucket id password now with ⟨hs, hg⟩ | ⟨hs, hg⟩
    · constructor
      · intro _; exact hs
      · intro hgr; rw [hg] at hgr; exact absurd hgr (by simp)
    · constructor
      · intro hgr; rw [hg] at hgr; exact absurd hgr (by simp)
      · intro _
        refine ⟨hs, ?_, ?_⟩
        · rw [hs]; exact getFile_increment_same files id
        · intro j hj; rw [hs]; exact getFile_increment_other files id j hj
  · intro shares id password now
    rcases viewPost_state shares id password now with ⟨hs, hg⟩ | ⟨hs, hg⟩
    · constructor
      · intro _; exact hs
      · intro hgr; rw [hg] at hgr; exact absurd hgr (by simp)
    · constructor
      · intro hgr; rw [hg] at hgr; exact absurd hgr (by simp)
      · intro _
        refine ⟨hs, ?_, ?_⟩
        · rw [hs]; exact getTextShare_increment_same shares id
        · intro j hj; rw [hs]; exact getTextShare_increment_other shares id j hj

/-- Witness for C4: a denied download (unknown id) and a denied view leave
their tables unchanged; a granted download and a granted view increment the
redeemed record. -/
theorem c4_counter_increment_iff_granted_witness :
    (downloadPost [] [] "x" none 0).2 = [] ∧
    (downloadPost
      [{ id := "rec1", filename := "key1", original_filename := "a.txt",
         mime_type := "text/plain", size := 4, created_at := 0, expires_at := 100,
         download_count := 0, max_downloads := none, password_hash := none,
         is_deleted := false }] [("key1", "body")] "rec1" none 0).2 =
      incrementDownloadCount
        [{ id := "rec1", filename := "key1", original_filename := "a.txt",
           mime_type := "text/plain", size := 4, created_at := 0, expires_at := 100,
           download_count := 0, max_downloads := none, password_hash := none,
           is_deleted := false }] "rec1" ∧
    (viewPost [] "y" none 0).2 = [] ∧
    (viewPost
      [{ id := "t1", title := none, content := "hello", language := "text",
         created_at := 0, expires_at := 100, view_count := 0, max_views := none,
         password_hash := none, is_deleted := false }] "t1" none 0).2 =
      incrementViewCount
        [{ id := "t1", title := none, content := "hello", language := "text",
           created_at := 0, expires_at := 100, view_count := 0, max_views := none,
           password_hash := none, is_deleted := false }] "t1" :=
  ⟨((c4_counter_increment_iff_granted).1 [] [] "x" none 0).1 (by decide),
   (((c4_counter_increment_iff_granted).1
      [{ id := "rec1", filename := "key1", original_filename := "a.txt",
         mime_type := "text/plain", size := 4, created_at := 0, expires_at := 100,
         download_count := 0, max_downloads := none, password_hash := none,
         is_deleted := false }] [("key1", "body")] "rec1" none 0).2 (by decide)).1,
   ((c4_counter_increment_iff_granted).2 [] "y" none 0).1 (by decide),
   (((c4_counter_increment_iff_granted).2
      [{ id := "t1", title := none, content := "hello", language := "text",
         created_at := 0, expires_at := 100, view_count := 0, max_views := none,
         password_hash := none, is_deleted := false }] "t1" none 0).2 (by decide)).1⟩

/-! ## Claim C5 — usage ceiling -/

/-- One granted redemption step on a single-record table: when the record is
live, unexpired, under its limit, passes the password gate, and its blob is
present, the handler returns the file and bumps the counter. -/
theorem downloadPost_grant_step (r : FileRecord) (bucket : List (String × String))
    (password : Option String) (now : Nat) (body : String)
    (hdel : r.is_deleted = false)
    (hexp : isExpired r.expires_at now = false)
    (hlim : (truthyNum r.max_downloads &&
      decide (r.download_count ≥ r.max_downloads.getD 0)) = false)
    (hpw : truthyStr r.password_hash = false ∨
      ∃ p h, password = some p ∧ r.password_hash = some h ∧ verifyPassword p h = true)
    (hblob : downloadFile bucket r.filename = some body) :
    downloadPost [r] bucket r.id password now =
      (.file body r.original_filename r.mime_type r.size,
       [{ r with download_count := r.download_count + 1 }]) := by
  have hget : getFile [r] r.id = some r := by
    simp [getFile, List.find?, hdel]
  unfold downloadPost
  rw [hget]
  rcases hpw with hno | ⟨p, h, hp, hh, hv⟩
  · simp [isFileAccessible, hexp, hlim, hno, hblob, incrementDownloadCount]
  · subst hp
    by_cases hempty : h.isEmpty
    · have hno : truthyStr r.password_hash = false := by simp [truthyStr, hh, hempty]
      simp [isFileAccessible, hexp, hlim, hno, hblob, incrementDownloadCount]
    · have hyes : truthyStr r.password_hash = true := by simp [truthyStr, hh, hempty]
      simp [isFileAccessible, hexp, hlim, hyes, hh, hv, hblob, incrementDownloadCount]

/-- One denied redemption step at the ceiling: a live, unexpired record whose
counter has reached its truthy limit is denied with no state change. -/
theorem downloadPost_limit_step (r : FileRecord) (bucket : List (String × String))
    (password : Option String) (now : Nat)
    (hdel : r.is_deleted = false)
    (hexp : isExpired r.expires_at now = false)
    (hN : truthyNum r.max_downloads = true)
    (hcnt : r.max_downloads.getD 0 ≤ r.download_count) :
    downloadPost [r] bucket r.id password now = (.limitReached, [r]) := by
  have hget : getFile [r] r.id = some r := by
    simp [getFile, List.find?, hdel]
  unfold downloadPost
  rw [hget]
  simp [isFileAccessible, hexp, hN, hcnt]

/-- C5: an artifact created with `max_downloads = N` (`N ≥ 1`), counter 0,
that stays unexpired and passes its password gate: `N` sequential redemptions
are all granted and leave the counter at exactly `N`, and the `(N+1)`-th
evaluation is denied `USAGE_LIMIT_REACHED` without consuming any budget. -/
theorem c5_usage_ceiling (r : FileRecord) (bucket : List (String × String))
    (password : Option String) (now : Nat) (N : Nat) (body : String)
    (hdel : r.is_deleted = false)
    (hcnt : r.download_count = 0)
    (hmax : r.max_downloads = some N)
    (h1 : 1 ≤ N)
    (hexp : isExpired r.expires_at now = false)
    (hpw : truthyStr r.password_hash = false ∨
      ∃ p h, password = some p ∧ r.password_hash = some h ∧ verifyPassword p h = true)
    (hblob : downloadFile bucket r.filename = some body) :
    (∀ k, k < N →
      dlGranted (downloadPost (redeemIter bucket r.id password now [r] k)
        bucket r.id password now).1 = true) ∧
    redeemIter bucket r.id password now [r] N = [{ r with download_count := N }] ∧
    downloadPost (redeemIter bucket r.id password now [r] N) bucket r.id password now =
      (.limitReached, [{ r with download_count := N }]) := by
  have hr0 : ({ r with download_count := 0 } : FileRecord) = r := by
    cases r
    simp_all
  have hstep : ∀ k, k < N →
      downloadPost [{ r with download_count := k }] bucket r.id password now =
        (.file body r.original_filename r.mime_type r.size,
         [{ r with download_count := k + 1 }]) := by
    intro k hk
    have hlim : (truthyNum ({ r with download_count := k } : FileRecord).max_downloads &&
        decide (({ r with download_count := k } : FileRecord).download_count ≥
          ({ r with download_count := k } : FileRecord).max_downloads.getD 0)) = false := by
      have hnk : ¬ (k ≥ N) := Nat.not_le.mpr hk
      simp [hmax, hnk]
    exact downloadPost_grant_step { r with download_count := k } bucket password now body
      hdel hexp hlim hpw hblob
  have hstate : ∀ k, k ≤ N →
      redeemIter bucket r.id password now [r] k = [{ r with download_count := k }] := by
    intro k
    induction k with
    | zero => intro _; rw [redeemIter, hr0]
    | succ k ih =>
      intro hk
      have hk' : k < N := hk
      rw [redeemIter, ih (Nat.le_of_lt hk'), hstep k hk']
  refine ⟨?_, hstate N (Nat.le_refl N), ?_⟩
  · intro k hk
    rw [hstate k (Nat.le_of_lt hk), hstep k hk]
    rfl
  · rw [hstate N (Nat.le_refl N)]
    apply downloadPost_limit_step
    · exact hdel
    · exact hexp
    · simp [hmax, truthyNum]
      omega
    · simp [hmax]

/-- Witness for C5: with `max_downloads = 2`, both redemptions are granted,
the counter ends at 2, and the third attempt is denied with no change. -/
theorem c5_usage_ceiling_witness :
    dlGranted (downloadPost (redeemIter [("key5", "hi")] "rec5" none 0
      [{ id := "rec5", filename := "key5", original_filename := "b.txt",
         mime_type := "text/plain", size := 2, created_at := 0, expires_at := 100,
         download_count := 0, max_downloads := some 2, password_hash := none,
         is_deleted := false }] 0) [("key5", "hi")] "rec5" none 0).1 = true ∧
    dlGranted (downloadPost (redeemIter [("key5", "hi")] "rec5" none 0
      [{ id := "rec5", filename := "key5", original_filename := "b.txt",
         mime_type := "text/plain", size := 2, created_at := 0, expires_at := 100,
         download_count := 0, max_downloads := some 2, password_hash := none,
         is_deleted := false }] 1) [("key5", "hi")] "rec5" none 0).1 = true ∧
    redeemIter [("key5", "hi")] "rec5" none 0
      [{ id := "rec5", filename := "key5", original_filename := "b.txt",
         mime_type := "text/plain", size := 2, created_at := 0, expires_at := 100,
         download_count := 0, max_downloads := some 2, password_hash := none,
         is_deleted := false }] 2 =
      [{ id := "rec5", filename := "key5", original_filename := "b.txt",
         mime_type := "text/plain", size := 2, created_at := 0, expires_at := 100,
         download_count := 2, max_downloads := some 2, password_hash := none,
         is_deleted := false }] ∧
    downloadPost (redeemIter [("key5", "hi")] "rec5" none 0
      [{ id := "rec5", filename := "key5", original_filename := "b.txt",
         mime_type := "text/plain", size := 2, created_at := 0, expires_at := 100,
         download_count := 0, max_downloads := some 2, password_hash := none,
         is_deleted := false }] 2) [("key5", "hi")] "rec5" none 0 =
      (.limitReached,
       [{ id := "rec5", filename := "key5", original_filename := "b.txt",
          mime_type := "text/plain", size := 2, created_at := 0, expires_at := 100,
          download_count := 2, max_downloads := some 2, password_hash := none,
          is_deleted := false }]) := by
  have h := c5_usage_ceiling
    { id := "rec5", filename := "key5", original_filename := "b.txt",
      mime_type := "text/plain", size := 2, created_at := 0, expires_at := 100,
      download_count := 0, max_downloads := some 2, password_hash := none,
      is_deleted := false }
    [("key5", "hi")] none 0 2 "hi" rfl rfl rfl (by decide) (by decide)
    (Or.inl rfl) (by decide)
  exact ⟨h.1 0 (by decide), h.1 1 (by decide), h.2.1, h.2.2⟩
